import Mathlib

/-!
Verification development for the GreenGate geo-compliance backend.

Shallow embedding of:
  - `app/services/validation_engine.py` (weighted risk score, critical-blocker
    veto, status mapping, per-check error isolation);
  - `app/middleware/api_key_tracker.py` and `app/services/api_key_service.py`
    (API-key admission, quota check, monthly reset, rate-limit headers);
  - `app/main.py` (middleware registration order of the admission pipeline);
  - `app/services/audit.py` (canonical GeoJSON hashing, report recording and
    verification).

Machine integers are modelled as `Nat`/`Int`; timestamps as `Int` epoch
seconds; SHA-256 is implemented over byte lists with arithmetic mod 2^32.
-/

namespace GreenGate

/-! ## Validation engine: data model (`app/models/schemas.py`) -/

/-- `CheckType` enum from `app/models/schemas.py`. -/
inductive CheckType where
  | DEFORESTATION_PRODES
  | DEFORESTATION_MAPBIOMAS
  | TERRA_INDIGENA
  | QUILOMBOLA
  | UNIDADE_CONSERVACAO
  | EMBARGO_IBAMA
  | APP_WATER
  deriving DecidableEq, Repr

/-- `CheckStatus` enum from `app/models/schemas.py`. -/
inductive CheckStatus where
  | PASS
  | FAIL
  | WARNING
  | SKIP
  deriving DecidableEq, Repr

/-- `ComplianceStatus` enum from `app/models/schemas.py`. -/
inductive ComplianceStatus where
  | PENDING
  | APPROVED
  | REJECTED
  | WARNING
  deriving DecidableEq, Repr

/-- `GeoCheckResult` from `app/models/schemas.py`, restricted to the fields
the validation-engine decision logic reads.  `score` is an `int` constrained
to 0..100 by the pydantic schema, modelled as `Nat`.  The open `details` bag
is modelled by its only decision-relevant entry, `details["error"]`. -/
structure GeoCheckResult where
  check_type : CheckType
  status : CheckStatus
  score : Nat
  message : String
  detailsError : Option String := none
  deriving DecidableEq, Repr

/-- The status/score/checks part of `GeoValidationResult`
(`app/models/schemas.py`); `plot_id`, timestamps and version snapshots do not
enter the decision logic. -/
structure GeoValidationResult where
  status : ComplianceStatus
  risk_score : Nat
  checks : List GeoCheckResult
  deriving DecidableEq, Repr

/-! ## Validation engine: decision logic (`app/services/validation_engine.py`) -/

/-- `CHECK_WEIGHTS` dict (`validation_engine.py` lines 39-47).  `APP_WATER`
has no entry; `_calculate_risk_score` reads weights with
`CHECK_WEIGHTS.get(check.check_type, 0)`, so the missing key means weight 0. -/
def CHECK_WEIGHTS : CheckType → Nat
  | .DEFORESTATION_PRODES => 35
  | .DEFORESTATION_MAPBIOMAS => 25
  | .TERRA_INDIGENA => 15
  | .EMBARGO_IBAMA => 15
  | .QUILOMBOLA => 5
  | .UNIDADE_CONSERVACAO => 5
  | .APP_WATER => 0

/-- Loop body of `GeoValidationEngine._calculate_risk_score`: accumulates
`(total_weight, weighted_score)` over the checks. -/
def riskScoreStep (acc : Nat × Nat) (check : GeoCheckResult) : Nat × Nat :=
  let weight := CHECK_WEIGHTS check.check_type
  (acc.1 + weight, acc.2 + check.score * weight)

/-- `GeoValidationEngine._calculate_risk_score` (`validation_engine.py`
lines 708-724): iterate over all checks accumulating `total_weight` and
`weighted_score`, return 50 when the total weight is 0, otherwise
`int(weighted_score / total_weight)` (truncating division; all operands are
non-negative, so `Nat` floor division matches Python `int()` truncation). -/
def calculate_risk_score (checks : List GeoCheckResult) : Nat :=
  let acc := checks.foldl riskScoreStep (0, 0)
  if acc.1 = 0 then 50 else acc.2 / acc.1

/-- `critical_blockers` list (`validation_engine.py` lines 743-748). -/
def critical_blockers : List CheckType :=
  [.TERRA_INDIGENA, .QUILOMBOLA, .EMBARGO_IBAMA, .DEFORESTATION_PRODES]

/-- One check triggers the critical-blocker flag when it is a blocker type
with FAIL status, or the UC check with score 0 (`validation_engine.py`
lines 752-761 and the identical loop at lines 210-217). -/
def isCriticalBlocker (check : GeoCheckResult) : Bool :=
  (critical_blockers.contains check.check_type && check.status == CheckStatus.FAIL)
    || (check.check_type == CheckType.UNIDADE_CONSERVACAO && check.score == 0)

/-- The `has_critical_blocker` loop (`validation_engine.py` lines 750-761):
true when some check triggers the flag. -/
def has_critical_blocker (checks : List GeoCheckResult) : Bool :=
  checks.any isCriticalBlocker

/-- `GeoValidationEngine._determine_status` (`validation_engine.py`
lines 726-784). -/
def determine_status (checks : List GeoCheckResult) : ComplianceStatus :=
  if has_critical_blocker checks then
    ComplianceStatus.REJECTED
  else
    let score := calculate_risk_score checks
    if score ≥ 75 then
      if checks.any (fun c => c.status == CheckStatus.WARNING) then
        ComplianceStatus.WARNING
      else
        ComplianceStatus.APPROVED
    else if score ≥ 60 then
      ComplianceStatus.WARNING
    else
      ComplianceStatus.REJECTED

/-- Tail of `GeoValidationEngine.validate_plot` (`validation_engine.py`
lines 196-247): determine the status, always compute the weighted score,
then force `risk_score = 0` when a critical blocker is present. -/
def validate_plot_outcome (checks : List GeoCheckResult) : GeoValidationResult :=
  let status := determine_status checks
  let risk_score := calculate_risk_score checks
  let risk_score := if has_critical_blocker checks then 0 else risk_score
  { status := status, risk_score := risk_score, checks := checks }

/-- `GeoValidationEngine._error_check_result` (`validation_engine.py`
lines 786-794): SKIP with neutral score 50 and the error recorded in
`details["error"]`. -/
def error_check_result (check_type : CheckType) (error : String) : GeoCheckResult :=
  { check_type := check_type
    status := CheckStatus.SKIP
    score := 50
    message := "Não foi possível executar verificação: " ++ error
    detailsError := some error }

/-- `GeoValidationEngine._execute_check_safely` (`validation_engine.py`
lines 249-269): the check body runs in a SAVEPOINT; an exception rolls it
back and yields `_error_check_result`.  The body outcome is modelled as
`Except String GeoCheckResult`. -/
def execute_check_safely (check_type : CheckType)
    (outcome : Except String GeoCheckResult) : GeoCheckResult :=
  match outcome with
  | .ok r => r
  | .error e => error_check_result check_type e

/-- The `check_functions` execution order in `validate_plot`
(`validation_engine.py` lines 174-183); `APP_WATER` is disabled. -/
def check_functions_order : List CheckType :=
  [.DEFORESTATION_PRODES, .DEFORESTATION_MAPBIOMAS, .TERRA_INDIGENA,
   .EMBARGO_IBAMA, .QUILOMBOLA, .UNIDADE_CONSERVACAO]

/-- `GeoValidationEngine.validate_plot` (`validation_engine.py`
lines 150-247) with the per-check database work abstracted as an outcome per
check kind: each of the six checks runs through `_execute_check_safely`, and
the verdict is assembled by `validate_plot_outcome`. -/
def validate_plot (outcomes : CheckType → Except String GeoCheckResult) :
    GeoValidationResult :=
  validate_plot_outcome
    (check_functions_order.map (fun ct => execute_check_safely ct (outcomes ct)))

/-- The aggregation formula as the spec states it, for comparison with
`calculate_risk_score`: weighted sum divided by weight sum over exactly the
non-skipped checks, 50 when every check is skipped. -/
def spec_risk_score (checks : List GeoCheckResult) : Nat :=
  let ns := checks.filter (fun c => c.status != CheckStatus.SKIP)
  let total_weight := (ns.map (fun c => CHECK_WEIGHTS c.check_type)).sum
  let weighted := (ns.map (fun c => c.score * CHECK_WEIGHTS c.check_type)).sum
  if total_weight = 0 then 50 else weighted / total_weight

/-! ## Theorems about the validation engine -/

theorem foldl_riskScoreStep (checks : List GeoCheckResult) (a b : Nat) :
    checks.foldl riskScoreStep (a, b) =
      (a + (checks.map (fun c => CHECK_WEIGHTS c.check_type)).sum,
       b + (checks.map (fun c => c.score * CHECK_WEIGHTS c.check_type)).sum) := by
  induction checks generalizing a b with
  | nil => simp
  | cons c rest ih =>
      simp only [List.foldl_cons, List.map_cons, List.sum_cons, riskScoreStep, ih]
      rw [Prod.mk.injEq]
      constructor <;> ring

/-- Claim C1: if any check among the critical-blocker kinds (prodes,
terra_indigena, quilombola, embargo_ibama) has status FAIL, or the UC check
has score 0, the verdict status is REJECTED and its risk score is 0,
regardless of the weighted aggregate. -/
theorem critical_blocker_forces_rejected_zero (checks : List GeoCheckResult)
    (h : ∃ c ∈ checks,
      (c.check_type ∈ critical_blockers ∧ c.status = CheckStatus.FAIL) ∨
      (c.check_type = CheckType.UNIDADE_CONSERVACAO ∧ c.score = 0)) :
    (validate_plot_outcome checks).status = ComplianceStatus.REJECTED ∧
    (validate_plot_outcome checks).risk_score = 0 := by
  have hb : has_critical_blocker checks = true := by
    obtain ⟨c, hc, hprop⟩ := h
    refine List.any_eq_true.mpr ⟨c, hc, ?_⟩
    rcases hprop with ⟨h1, h2⟩ | ⟨h1, h2⟩ <;>
      simp [isCriticalBlocker, h1, h2, List.contains_iff_exists_mem_beq]
  simp [validate_plot_outcome, determine_status, hb]

/-- Concrete instance of the critical-blocker veto: a single FAIL on
terra_indigena. -/
def vetoWitnessChecks : List GeoCheckResult :=
  [{ check_type := CheckType.TERRA_INDIGENA, status := CheckStatus.FAIL,
     score := 0, message := "overlap" }]

theorem critical_blocker_forces_rejected_zero_witness :
    (∃ c ∈ vetoWitnessChecks,
      (c.check_type ∈ critical_blockers ∧ c.status = CheckStatus.FAIL) ∨
      (c.check_type = CheckType.UNIDADE_CONSERVACAO ∧ c.score = 0)) ∧
    (validate_plot_outcome vetoWitnessChecks).status = ComplianceStatus.REJECTED ∧
    (validate_plot_outcome vetoWitnessChecks).risk_score = 0 :=
  ⟨by decide, critical_blocker_forces_rejected_zero vetoWitnessChecks (by decide)⟩

/-- A check list refuting claim C2: prodes skipped (neutral score 50), all
other checks PASS with score 100. -/
def skippedProdesChecks : List GeoCheckResult :=
  [ error_check_result CheckType.DEFORESTATION_PRODES "timeout",
    { check_type := CheckType.DEFORESTATION_MAPBIOMAS, status := CheckStatus.PASS,
      score := 100, message := "ok" },
    { check_type := CheckType.TERRA_INDIGENA, status := CheckStatus.PASS,
      score := 100, message := "ok" },
    { check_type := CheckType.EMBARGO_IBAMA, status := CheckStatus.PASS,
      score := 100, message := "ok" },
    { check_type := CheckType.QUILOMBOLA, status := CheckStatus.PASS,
      score := 100, message := "ok" },
    { check_type := CheckType.UNIDADE_CONSERVACAO, status := CheckStatus.PASS,
      score := 100, message := "ok" } ]

/-- Counterexample to claim C2: with prodes skipped and the rest at 100, the
engine aggregates over ALL checks (the skip contributes 35·50) and returns
82, while the spec formula over exactly the non-skipped checks returns 100. -/
theorem risk_score_not_over_non_skipped :
    calculate_risk_score skippedProdesChecks = 82 ∧
    spec_risk_score skippedProdesChecks = 100 := by
  constructor <;> decide

/-- Claim C2 as amended: the aggregated risk score is the floor of the
weighted sum of scores divided by the sum of weights taken over ALL checks,
skipped ones included (a skipped check contributes its neutral score of 50);
it is 50 when the total weight is 0.  In particular a run in which every one
of the six checks errored (six SKIP results at score 50) aggregates to 50. -/
theorem risk_score_weighted_over_all_checks :
    (∀ checks : List GeoCheckResult,
      calculate_risk_score checks =
        if (checks.map (fun c => CHECK_WEIGHTS c.check_type)).sum = 0 then 50
        else (checks.map (fun c => c.score * CHECK_WEIGHTS c.check_type)).sum /
             (checks.map (fun c => CHECK_WEIGHTS c.check_type)).sum) ∧
    (∀ errs : CheckType → String,
      calculate_risk_score
        (check_functions_order.map (fun ct => error_check_result ct (errs ct))) = 50) := by
  have key : ∀ checks : List GeoCheckResult,
      calculate_risk_score checks =
        if (checks.map (fun c => CHECK_WEIGHTS c.check_type)).sum = 0 then 50
        else (checks.map (fun c => c.score * CHECK_WEIGHTS c.check_type)).sum /
             (checks.map (fun c => CHECK_WEIGHTS c.check_type)).sum := by
    intro checks
    unfold calculate_risk_score
    rw [foldl_riskScoreStep checks 0 0]
    simp
  refine ⟨key, ?_⟩
  intro errs
  rw [key]
  simp [check_functions_order, error_check_result, CHECK_WEIGHTS]

/-- Claim C6: absent a critical blocker the verdict status follows the
score thresholds: score ≥ 75 with no WARNING check gives APPROVED; score
≥ 75 with some WARNING check gives WARNING; 60 ≤ score < 75 gives WARNING;
score < 60 gives REJECTED. -/
theorem status_mapping_without_blockers (checks : List GeoCheckResult)
    (h : has_critical_blocker checks = false) :
    (calculate_risk_score checks ≥ 75 →
        (¬ ∃ c ∈ checks, c.status = CheckStatus.WARNING) →
        (validate_plot_outcome checks).status = ComplianceStatus.APPROVED) ∧
    (calculate_risk_score checks ≥ 75 →
        (∃ c ∈ checks, c.status = CheckStatus.WARNING) →
        (validate_plot_outcome checks).status = ComplianceStatus.WARNING) ∧
    (60 ≤ calculate_risk_score checks → calculate_risk_score checks < 75 →
        (validate_plot_outcome checks).status = ComplianceStatus.WARNING) ∧
    (calculate_risk_score checks < 60 →
        (validate_plot_outcome checks).status = ComplianceStatus.REJECTED) := by
  have hwarn : (checks.any (fun c => c.status == CheckStatus.WARNING)) = true ↔
      ∃ c ∈ checks, c.status = CheckStatus.WARNING := by
    simp [List.any_eq_true]
  refine ⟨?_, ?_, ?_, ?_⟩
  · intro hs hw
    have : (checks.any (fun c => c.status == CheckStatus.WARNING)) = false := by
      rcases Bool.eq_false_or_eq_true (checks.any (fun c => c.status == CheckStatus.WARNING)) with ht | hf
      · exact absurd (hwarn.mp ht) hw
      · exact hf
    simp [validate_plot_outcome, determine_status, h, hs, this]
  · intro hs hw
    have := hwarn.mpr hw
    simp [validate_plot_outcome, determine_status, h, hs, this]
  · intro h60 h75
    simp [validate_plot_outcome, determine_status, h, h60, Nat.not_le.mpr h75]
  · intro h60
    have h75 : ¬ calculate_risk_score checks ≥ 75 := by omega
    have h60n : ¬ calculate_risk_score checks ≥ 60 := by omega
    simp [validate_plot_outcome, determine_status, h, h75, h60n]

/-- Six PASS checks at score 100, one per emitted kind. -/
def allPassChecks : List GeoCheckResult :=
  check_functions_order.map
    (fun ct => { check_type := ct, status := CheckStatus.PASS, score := 100,
                 message := "ok" })

theorem status_mapping_without_blockers_witness :
    has_critical_blocker allPassChecks = false ∧
    (validate_plot_outcome allPassChecks).status = ComplianceStatus.APPROVED :=
  ⟨by decide,
   (status_mapping_without_blockers allPassChecks (by decide)).1 (by decide) (by decide)⟩

/-- Claim C5: when a check procedure errors, the verdict is still produced,
contains all six checks, and that check's result is a SKIP with score 50 and
the error text in `details["error"]`. -/
theorem check_error_isolated_as_skip
    (outcomes : CheckType → Except String GeoCheckResult)
    (ct : CheckType) (e : String)
    (hct : ct ∈ check_functions_order)
    (herr : outcomes ct = Except.error e) :
    (validate_plot outcomes).checks.length = 6 ∧
    ∃ c ∈ (validate_plot outcomes).checks,
      c.check_type = ct ∧ c.status = CheckStatus.SKIP ∧ c.score = 50 ∧
      c.detailsError = some e := by
  constructor
  · simp [validate_plot, validate_plot_outcome, check_functions_order]
  · refine ⟨execute_check_safely ct (outcomes ct), ?_, ?_⟩
    · simpa [validate_plot, validate_plot_outcome] using
        List.mem_map_of_mem (fun ct => execute_check_safely ct (outcomes ct)) hct
    · rw [herr]
      simp [execute_check_safely, error_check_result]

/-- A concrete run in which the mapbiomas check errors and the rest pass. -/
def mapbiomasErrorOutcomes : CheckType → Except String GeoCheckResult :=
  fun ct =>
    if ct = CheckType.DEFORESTATION_MAPBIOMAS then
      Except.error "statement timeout"
    else
      Except.ok { check_type := ct, status := CheckStatus.PASS, score := 100,
                  message := "ok" }

theorem check_error_isolated_as_skip_witness :
    (CheckType.DEFORESTATION_MAPBIOMAS ∈ check_functions_order ∧
     mapbiomasErrorOutcomes CheckType.DEFORESTATION_MAPBIOMAS =
       Except.error "statement timeout") ∧
    ((validate_plot mapbiomasErrorOutcomes).checks.length = 6 ∧
     ∃ c ∈ (validate_plot mapbiomasErrorOutcomes).checks,
       c.check_type = CheckType.DEFORESTATION_MAPBIOMAS ∧
       c.status = CheckStatus.SKIP ∧ c.score = 50 ∧
       c.detailsError = some "statement timeout") :=
  ⟨⟨by decide, rfl⟩,
   check_error_isolated_as_skip mapbiomasErrorOutcomes
     CheckType.DEFORESTATION_MAPBIOMAS "statement timeout" (by decide) rfl⟩

/-! ## API-key admission (`app/middleware/api_key_tracker.py`,
`app/services/api_key_service.py`, `app/models/api_key.py`) -/

/-- An `api_keys` row (`app/models/api_key.py`), restricted to the columns
the admission path reads and writes.  Counters are Python ints; timestamps
are epoch seconds (`Int`). -/
structure APIKeyRow where
  monthly_quota : Option Int
  requests_this_month : Int
  total_requests : Int
  last_reset_at : Option Int
  last_used_at : Option Int
  expires_at : Option Int
  is_active : Bool
  is_revoked : Bool
  deriving DecidableEq, Repr

/-- `APIKey.has_quota_available` property (`app/models/api_key.py`
lines 76-82): unlimited when `monthly_quota` is null, otherwise
`requests_this_month < monthly_quota`. -/
def has_quota_available (row : APIKeyRow) : Bool :=
  match row.monthly_quota with
  | none => true
  | some q => decide (row.requests_this_month < q)

/-- `APIKeyService.track_usage` (`api_key_service.py` lines 181-242):
`needs_reset` is true when `(now - last_reset_at).days >= 30`
(`timedelta.days` floor-divides the elapsed seconds by 86400); the reset
branch stores `requests_this_month = 1`, the first-use branch (null
`last_reset_at`) and the normal branch increment it. -/
def track_usage (row : APIKeyRow) (now : Int) : APIKeyRow :=
  let needs_reset :=
    match row.last_reset_at with
    | some last => decide (30 ≤ (now - last).fdiv 86400)
    | none => false
  if needs_reset then
    { row with total_requests := row.total_requests + 1,
               requests_this_month := 1,
               last_used_at := some now,
               last_reset_at := some now }
  else
    match row.last_reset_at with
    | none =>
        { row with total_requests := row.total_requests + 1,
                   requests_this_month := row.requests_this_month + 1,
                   last_used_at := some now,
                   last_reset_at := some now }
    | some _ =>
        { row with total_requests := row.total_requests + 1,
                   requests_this_month := row.requests_this_month + 1,
                   last_used_at := some now }

/-- The `SELECT ... WHERE key_hash = ? AND is_active AND NOT is_revoked FOR
UPDATE` of `APIKeyTrackerMiddleware.dispatch` (`api_key_tracker.py`
lines 87-94), over the table as an association list. -/
def select_api_key_for_update (rows : List (String × APIKeyRow))
    (key_hash : String) : Option APIKeyRow :=
  (rows.find? (fun p => p.1 == key_hash && p.2.is_active && !p.2.is_revoked)).map
    Prod.snd

/-- Expiry test of `dispatch` (`api_key_tracker.py` line 112):
`expires_at and now > expires_at`. -/
def key_expired (row : APIKeyRow) (now : Int) : Bool :=
  match row.expires_at with
  | some e => decide (e < now)
  | none => false

/-- The `X-RateLimit-Limit` / `X-RateLimit-Remaining` / `X-RateLimit-Reset`
header triple attached by `dispatch` (`api_key_tracker.py` lines 209-212). -/
structure RateLimitHeaders where
  limit : Int
  remaining : Int
  reset : Int
  deriving DecidableEq, Repr

/-- Outcome of the admission path of `APIKeyTrackerMiddleware.dispatch`. -/
inductive AdmissionResult where
  /-- 401: no active unrevoked row for the key hash. -/
  | unauthorizedInvalid
  /-- 401: the key has expired. -/
  | unauthorizedExpired
  /-- 429: monthly quota exhausted; carries the limit, the counter, and the
  reset timestamp reported in the response. -/
  | quotaExceeded (monthly_quota : Option Int) (requests_this_month : Int)
      (reset : Int)
  /-- Admitted: the committed row after `track_usage`, and the rate-limit
  headers when present. -/
  | admitted (newRow : APIKeyRow) (headers : Option RateLimitHeaders)
  deriving DecidableEq, Repr

/-- Admission path of `APIKeyTrackerMiddleware.dispatch`
(`api_key_tracker.py` lines 70-214), for a non-public, non-OPTIONS request
bearing an `x-api-key`: the locked row is checked for expiry, then
`check_quota` runs on it as loaded (no reset applied), and only for
admitted requests does `track_usage` update the counters; the rate-limit
headers are attached only when `monthly_quota` is non-null, computing
`remaining = max(0, monthly_quota - (requests_this_month + 1))` from the
pre-commit counter. -/
def dispatch_admission (row? : Option APIKeyRow) (now : Int) : AdmissionResult :=
  match row? with
  | none => AdmissionResult.unauthorizedInvalid
  | some row =>
    if key_expired row now then
      AdmissionResult.unauthorizedExpired
    else if !has_quota_available row then
      AdmissionResult.quotaExceeded row.monthly_quota row.requests_this_month
        (match row.last_reset_at with | some l => l + 30 * 86400 | none => 0)
    else
      let current_requests := row.requests_this_month
      let last_reset_timestamp :=
        match row.last_reset_at with | some l => l + 30 * 86400 | none => 0
      let newRow := track_usage row now
      let requests_after_increment := current_requests + 1
      match row.monthly_quota with
      | some q =>
          AdmissionResult.admitted newRow
            (some { limit := q,
                    remaining := max 0 (q - requests_after_increment),
                    reset := last_reset_timestamp })
      | none => AdmissionResult.admitted newRow none

/-- A free-plan key with its quota exhausted and a 31-day-old usage window:
`monthly_quota = 3`, `requests_this_month = 3`, `last_reset_at` at epoch 0. -/
def staleExhaustedRow : APIKeyRow :=
  { monthly_quota := some 3, requests_this_month := 3, total_requests := 3,
    last_reset_at := some 0, last_used_at := some 0, expires_at := none,
    is_active := true, is_revoked := false }

/-- Claim C3 evaluated on the failing input: the admission path checks the
quota on the row as loaded, BEFORE any monthly reset, so a key whose
30-day window has passed but whose counter sits at the quota is refused
with 429 — even though `track_usage`, had it run, would have reset the
counter to 1.  The reset only ever executes inside `track_usage`, i.e. on
admitted requests, so waiting for the monthly reset (as the 429 body
instructs) never unblocks the key. -/
theorem stale_window_still_quota_exceeded :
    dispatch_admission (some staleExhaustedRow) (31 * 86400) =
      AdmissionResult.quotaExceeded (some 3) 3 (30 * 86400) ∧
    (track_usage staleExhaustedRow (31 * 86400)).requests_this_month = 1 := by
  constructor <;> decide

/-- An enterprise (unlimited) key row. -/
def unlimitedRow : APIKeyRow :=
  { monthly_quota := none, requests_this_month := 7, total_requests := 7,
    last_reset_at := some 0, last_used_at := some 0, expires_at := none,
    is_active := true, is_revoked := false }

/-- Counterexample to claim C9: a request admitted under an unlimited plan
(`monthly_quota` null) carries NO rate-limit headers — the middleware adds
them only when `monthly_quota` is non-null. -/
theorem unlimited_plan_admitted_without_headers :
    dispatch_admission (some unlimitedRow) 86400 =
      AdmissionResult.admitted (track_usage unlimitedRow 86400) none := by
  decide

/-- Claim C9 as amended: an admitted request carries the three rate-limit
headers exactly when `monthly_quota` is non-null; `Remaining` is
`max(0, monthly_quota - (requests_this_month + 1))` computed from the
pre-admission counter, and `Reset` is `last_reset_at + 30 days` (0 when
null). -/
theorem admitted_request_headers (row : APIKeyRow) (now : Int)
    (hexp : key_expired row now = false)
    (hquota : has_quota_available row = true) :
    dispatch_admission (some row) now =
      AdmissionResult.admitted (track_usage row now)
        (row.monthly_quota.map (fun q =>
          { limit := q,
            remaining := max 0 (q - (row.requests_this_month + 1)),
            reset := match row.last_reset_at with
                     | some l => l + 30 * 86400
                     | none => 0 })) := by
  rcases hmq : row.monthly_quota with _ | q <;>
    simp [dispatch_admission, hexp, hquota, hmq]

/-- A professional-plan key with one request used this month. -/
def limitedRow : APIKeyRow :=
  { monthly_quota := some 50, requests_this_month := 1, total_requests := 10,
    last_reset_at := some 100, last_used_at := some 200, expires_at := none,
    is_active := true, is_revoked := false }

theorem admitted_request_headers_witness :
    (key_expired limitedRow 86400 = false ∧
     has_quota_available limitedRow = true) ∧
    dispatch_admission (some limitedRow) 86400 =
      AdmissionResult.admitted (track_usage limitedRow 86400)
        (some { limit := 50, remaining := 48, reset := 100 + 30 * 86400 }) :=
  ⟨⟨by decide, by decide⟩, by
    rw [admitted_request_headers limitedRow 86400 (by decide) (by decide)]
    decide⟩

/-! ## Admission pipeline order (`app/main.py` `create_app`) -/

/-- The stages of the per-request pipeline built by `create_app`. -/
inductive PipelineStage where
  | corsMiddleware
  | securityHeaders
  | requestLogging
  | apiKeyTracker
  | rateLimit
  | limitUploadSize
  | routeHandler
  deriving DecidableEq, Repr

/-- Starlette `add_middleware` inserts at the front of the user-middleware
list, and the front of that list becomes the OUTERMOST wrapper of the app,
so the middleware added last executes first on each request (`app/main.py`
line 155: "Adicionado por último = executado primeiro"). -/
def add_middleware (stack : List PipelineStage) (m : PipelineStage) :
    List PipelineStage :=
  m :: stack

/-- The middleware registrations of `create_app` (`app/main.py`
lines 119-156) in source order: CORS, security headers, request logging,
API-key tracker, rate limit (when `RATE_LIMIT_ENABLED`, default true),
upload-size limit. -/
def create_app_stack (rate_limit_enabled : Bool) : List PipelineStage :=
  let stack : List PipelineStage := []
  let stack := add_middleware stack PipelineStage.corsMiddleware
  let stack := add_middleware stack PipelineStage.securityHeaders
  let stack := add_middleware stack PipelineStage.requestLogging
  let stack := add_middleware stack PipelineStage.apiKeyTracker
  let stack := if rate_limit_enabled then
                 add_middleware stack PipelineStage.rateLimit
               else stack
  add_middleware stack PipelineStage.limitUploadSize

/-- Request-path execution order: outermost middleware first, route handler
last. -/
def request_execution_order (rate_limit_enabled : Bool) : List PipelineStage :=
  create_app_stack rate_limit_enabled ++ [PipelineStage.routeHandler]

/-- The stage order claim C4 states: size check, then logging bind, then
API-key quota admission, then rate limit, then the handler. -/
def spec_pipeline_order : List PipelineStage :=
  [PipelineStage.limitUploadSize, PipelineStage.requestLogging,
   PipelineStage.apiKeyTracker, PipelineStage.rateLimit,
   PipelineStage.routeHandler]

/-- Counterexample to claim C4: restricted to the five stages the claim
names, the actual execution order is size check, then RATE LIMIT, then
API-key admission, then LOGGING, then handler — not the claimed order. -/
theorem pipeline_order_differs_from_claim :
    (request_execution_order true).filter
        (fun s => spec_pipeline_order.contains s) =
      [PipelineStage.limitUploadSize, PipelineStage.rateLimit,
       PipelineStage.apiKeyTracker, PipelineStage.requestLogging,
       PipelineStage.routeHandler] ∧
    ([PipelineStage.limitUploadSize, PipelineStage.rateLimit,
      PipelineStage.apiKeyTracker, PipelineStage.requestLogging,
      PipelineStage.routeHandler] : List PipelineStage) ≠ spec_pipeline_order := by
  constructor <;> decide

/-- Claim C4 as amended: with rate limiting enabled (the default), each
request executes the upload-size check first, then the rate limit, then the
API-key quota admission (with its commit), then the logging bind, then the
security-header and CORS wrappers, and the route handler last. -/
theorem pipeline_execution_order :
    request_execution_order true =
      [PipelineStage.limitUploadSize, PipelineStage.rateLimit,
       PipelineStage.apiKeyTracker, PipelineStage.requestLogging,
       PipelineStage.securityHeaders, PipelineStage.corsMiddleware,
       PipelineStage.routeHandler] := by
  decide

/-! ## Canonical GeoJSON serialization (`app/services/audit.py`
`hash_geojson`, and the identical `generate_geometry_hash` in
`app/services/reports/pdf_generator.py`) -/

/-- JSON values as handed to `json.dumps`.  A number is carried as the
decimal literal `json.dumps` renders for it — Python renders each numeric
value deterministically, and the literal is all the hashing pipeline sees.
Objects are association lists; Python dicts have pairwise-distinct keys. -/
inductive Json where
  | null
  | boolean (b : Bool)
  | number (lit : String)
  | string (s : String)
  | array (elems : List Json)
  | object (members : List (String × Json))
  deriving Repr

/-- Lowercase hexadecimal digit. -/
def hexDigit (n : Nat) : Char :=
  if n < 10 then Char.ofNat (48 + n) else Char.ofNat (87 + n)

/-- Four lowercase hex digits, for `\uXXXX` escapes. -/
def hex4 (n : Nat) : String :=
  String.mk [hexDigit (n / 4096 % 16), hexDigit (n / 256 % 16),
             hexDigit (n / 16 % 16), hexDigit (n % 16)]

/-- `json.dumps` string escaping with the default `ensure_ascii=True`:
quote, backslash and the short control escapes, `\uXXXX` for the other
characters outside 0x20..0x7e (a surrogate pair above the BMP). -/
def escapeChar (c : Char) : String :=
  let n := c.toNat
  if n = 34 then "\\\""
  else if n = 92 then "\\\\"
  else if n = 10 then "\\n"
  else if n = 9 then "\\t"
  else if n = 13 then "\\r"
  else if n = 8 then "\\b"
  else if n = 12 then "\\f"
  else if n < 32 || n > 126 then
    if n ≤ 65535 then "\\u" ++ hex4 n
    else
      "\\u" ++ hex4 (55296 + (n - 65536) / 1024) ++
      "\\u" ++ hex4 (56320 + (n - 65536) % 1024)
  else String.singleton c

/-- JSON string literal rendering. -/
def encodeJsonString (s : String) : String :=
  "\"" ++ String.join (s.toList.map escapeChar) ++ "\""

/-- Code-point-lexicographic comparison of character lists: how Python
compares `str` values when `sort_keys=True` sorts member keys. -/
def charListLeb : List Char → List Char → Bool
  | [], _ => true
  | _ :: _, [] => false
  | c :: cs, d :: ds =>
      if c.toNat < d.toNat then true
      else if d.toNat < c.toNat then false
      else charListLeb cs ds

/-- Python string comparison, by code point. -/
def strLeb (a b : String) : Bool := charListLeb a.toList b.toList

/-- Insert a member into a key-sorted list, before the first member of
greater-or-equal key. -/
def insertByKey {α : Type} (p : String × α) : List (String × α) → List (String × α)
  | [] => [p]
  | q :: rest => if strLeb p.1 q.1 then p :: q :: rest else q :: insertByKey p rest

/-- The stable by-key sort `json.dumps(sort_keys=True)` performs on each
object's members (Python `sorted` is stable; keys of a dict are distinct). -/
def sortByKey {α : Type} : List (String × α) → List (String × α)
  | [] => []
  | p :: rest => insertByKey p (sortByKey rest)

mutual
/-- `json.dumps(value, sort_keys=True, separators=(",", ":"))` as called by
`hash_geojson` (`audit.py` line 48): canonical serialization with
recursively sorted object keys and no whitespace.  Members are serialized
and then sorted by key; since the sort compares only keys, this agrees with
Python sorting the members first and serializing after. -/
def serJson : Json → String
  | .null => "null"
  | .boolean b => if b then "true" else "false"
  | .number lit => lit
  | .string s => encodeJsonString s
  | .array xs => "[" ++ String.intercalate "," (serList xs) ++ "]"
  | .object l =>
      "\x7b" ++
        String.intercalate ","
          ((sortByKey (serMembers l)).map
            (fun p => encodeJsonString p.1 ++ ":" ++ p.2)) ++
      "\x7d"

/-- Serialize the elements of an array in order. -/
def serList : List Json → List String
  | [] => []
  | x :: rest => serJson x :: serList rest

/-- Serialize the values of an object's members, keeping keys. -/
def serMembers : List (String × Json) → List (String × String)
  | [] => []
  | (k, v) :: rest => (k, serJson v) :: serMembers rest
end

mutual
/-- Recursively sorts every object member list by key.  Two `Json` values
with duplicate-free object keys are equal up to a permutation of object
keys, at any nesting depth, exactly when their `sortKeysRec` forms agree. -/
def sortKeysRec : Json → Json
  | .array xs => .array (sortKeysList xs)
  | .object l => .object (sortByKey (sortKeysMembers l))
  | j => j

/-- `sortKeysRec` mapped over an array's elements. -/
def sortKeysList : List Json → List Json
  | [] => []
  | x :: rest => sortKeysRec x :: sortKeysList rest

/-- `sortKeysRec` mapped over an object's member values. -/
def sortKeysMembers : List (String × Json) → List (String × Json)
  | [] => []
  | (k, v) :: rest => (k, sortKeysRec v) :: sortKeysMembers rest
end

/-! ## SHA-256 (`hashlib.sha256(...).hexdigest()`), over byte lists with
arithmetic mod 2^32 -/

/-- Truncation to a 32-bit word. -/
def w32 (n : Nat) : Nat := n % 4294967296

/-- Right rotation of a 32-bit word. -/
def rotr32 (x n : Nat) : Nat := w32 (x / 2 ^ n + x % 2 ^ n * 2 ^ (32 - n))

def smallSigma0 (x : Nat) : Nat := rotr32 x 7 ^^^ rotr32 x 18 ^^^ x / 2 ^ 3
def smallSigma1 (x : Nat) : Nat := rotr32 x 17 ^^^ rotr32 x 19 ^^^ x / 2 ^ 10
def bigSigma0 (x : Nat) : Nat := rotr32 x 2 ^^^ rotr32 x 13 ^^^ rotr32 x 22
def bigSigma1 (x : Nat) : Nat := rotr32 x 6 ^^^ rotr32 x 11 ^^^ rotr32 x 25

/-- The 64 SHA-256 round constants (FIPS 180-4), in decimal. -/
def sha256K : List Nat :=
  [1116352408, 1899447441, 3049323471, 3921009573,
   961987163, 1508970993, 2453635748, 2870763221,
   3624381080, 310598401, 607225278, 1426881987,
   1925078388, 2162078206, 2614888103, 3248222580,
   3835390401, 4022224774, 264347078, 604807628,
   770255983, 1249150122, 1555081692, 1996064986,
   2554220882, 2821834349, 2952996808, 3210313671,
   3336571891, 3584528711, 113926993, 338241895,
   666307205, 773529912, 1294757372, 1396182291,
   1695183700, 1986661051, 2177026350, 2456956037,
   2730485921, 2820302411, 3259730800, 3345764771,
   3516065817, 3600352804, 4094571909, 275423344,
   430227734, 506948616, 659060556, 883997877,
   958139571, 1322822218, 1537002063, 1747873779,
   1955562222, 2024104815, 2227730452, 2361852424,
   2428436474, 2756734187, 3204031479, 3329325298]

/-- Big-endian byte rendering of `n` on `k` bytes. -/
def beBytes : Nat → Nat → List Nat
  | 0, _ => []
  | k + 1, n => beBytes k (n / 256) ++ [n % 256]

/-- Merkle-Damgård padding: append 0x80, zeros to 56 mod 64, then the
message bit length on 8 big-endian bytes. -/
def sha256Pad (msg : List Nat) : List Nat :=
  let len := msg.length
  let zeros := (119 - len % 64) % 64
  msg ++ [128] ++ List.replicate zeros 0 ++ beBytes 8 (8 * len)

/-- Group bytes into 32-bit big-endian words. -/
def beWords : List Nat → List Nat
  | b0 :: b1 :: b2 :: b3 :: rest =>
      (b0 * 16777216 + b1 * 65536 + b2 * 256 + b3) :: beWords rest
  | _ => []

/-- Extend the 16 block words to the 64-word message schedule. -/
def extendWords (ws : List Nat) : Nat → List Nat
  | 0 => ws
  | fuel + 1 =>
      let i := ws.length
      let next := w32 (smallSigma1 (ws.getD (i - 2) 0) + ws.getD (i - 7) 0 +
                       smallSigma0 (ws.getD (i - 15) 0) + ws.getD (i - 16) 0)
      extendWords (ws ++ [next]) fuel

/-- The eight 32-bit working registers. -/
structure Sha256Regs where
  a : Nat
  b : Nat
  c : Nat
  d : Nat
  e : Nat
  f : Nat
  g : Nat
  h : Nat
  deriving DecidableEq, Repr

/-- One compression round; `kw` is the pair (round constant, schedule
word).  The complement in `ch` is the 32-bit bitwise NOT. -/
def sha256Round (st : Sha256Regs) (kw : Nat × Nat) : Sha256Regs :=
  let S1 := bigSigma1 st.e
  let ch := (st.e &&& st.f) ^^^ ((st.e ^^^ 4294967295) &&& st.g)
  let temp1 := w32 (st.h + S1 + ch + kw.1 + kw.2)
  let S0 := bigSigma0 st.a
  let maj := (st.a &&& st.b) ^^^ (st.a &&& st.c) ^^^ (st.b &&& st.c)
  let temp2 := w32 (S0 + maj)
  { a := w32 (temp1 + temp2), b := st.a, c := st.b, d := st.c,
    e := w32 (st.d + temp1), f := st.e, g := st.f, h := st.g }

/-- Compress one 64-byte block into the running state. -/
def sha256Block (hv : Sha256Regs) (block : List Nat) : Sha256Regs :=
  let ws := extendWords (beWords block) 48
  let st := (sha256K.zip ws).foldl sha256Round hv
  { a := w32 (hv.a + st.a), b := w32 (hv.b + st.b), c := w32 (hv.c + st.c),
    d := w32 (hv.d + st.d), e := w32 (hv.e + st.e), f := w32 (hv.f + st.f),
    g := w32 (hv.g + st.g), h := w32 (hv.h + st.h) }

/-- SHA-256 initial hash values (FIPS 180-4), in decimal. -/
def sha256Init : Sha256Regs :=
  { a := 1779033703, b := 3144134277, c := 1013904242, d := 2773480762,
    e := 1359893119, f := 2600822924, g := 528734635, h := 1541459225 }

/-- Split a byte list into 64-byte chunks (fuel-driven; each step consumes
at least one byte, so `l.length` fuel always suffices). -/
def chunksGo : Nat → List Nat → List (List Nat)
  | 0, _ => []
  | _, [] => []
  | fuel + 1, b :: rest => ((b :: rest).take 64) :: chunksGo fuel ((b :: rest).drop 64)

/-- Split a byte list into 64-byte chunks. -/
def chunks64 (l : List Nat) : List (List Nat) := chunksGo l.length l

/-- SHA-256 digest bytes of a byte string. -/
def sha256Bytes (msg : List Nat) : List Nat :=
  let final := (chunks64 (sha256Pad msg)).foldl sha256Block sha256Init
  beBytes 4 final.a ++ beBytes 4 final.b ++ beBytes 4 final.c ++
  beBytes 4 final.d ++ beBytes 4 final.e ++ beBytes 4 final.f ++
  beBytes 4 final.g ++ beBytes 4 final.h

/-- Lowercase hex rendering of a byte list (`hexdigest()`). -/
def bytesToHex (bs : List Nat) : String :=
  String.join (bs.map (fun b => String.mk [hexDigit (b / 16), hexDigit (b % 16)]))

/-- UTF-8 encoding of one character (`str.encode("utf-8")`). -/
def utf8EncodeCharBytes (c : Char) : List Nat :=
  let n := c.toNat
  if n < 128 then [n]
  else if n < 2048 then [192 + n / 64, 128 + n % 64]
  else if n < 65536 then [224 + n / 4096, 128 + n / 64 % 64, 128 + n % 64]
  else [240 + n / 262144, 128 + n / 4096 % 64, 128 + n / 64 % 64, 128 + n % 64]

/-- UTF-8 encoding of a string. -/
def utf8Bytes (s : String) : List Nat :=
  (s.toList.map utf8EncodeCharBytes).flatten

/-- SHA-256 lowercase hexdigest of a byte string. -/
def sha256Hex (msg : List Nat) : String :=
  bytesToHex (sha256Bytes msg)

/-- `hash_geojson` (`audit.py` lines 45-49): SHA-256 hexdigest of the
canonical (sorted-keys, no-whitespace) serialization, UTF-8 encoded. -/
def hash_geojson (geojson : Json) : String :=
  sha256Hex (utf8Bytes (serJson geojson))

/-! ## Key-order independence of the canonical serialization -/

theorem serList_eq_map (xs : List Json) : serList xs = xs.map serJson := by
  induction xs with
  | nil => rfl
  | cons x rest ih => simp [serList, ih]

theorem serMembers_eq_map (l : List (String × Json)) :
    serMembers l = l.map (fun p => (p.1, serJson p.2)) := by
  induction l with
  | nil => rfl
  | cons p rest ih => cases p; simp [serMembers, ih]

theorem sortKeysList_eq_map (xs : List Json) :
    sortKeysList xs = xs.map sortKeysRec := by
  induction xs with
  | nil => rfl
  | cons x rest ih => simp [sortKeysList, ih]

theorem sortKeysMembers_eq_map (l : List (String × Json)) :
    sortKeysMembers l = l.map (fun p => (p.1, sortKeysRec p.2)) := by
  induction l with
  | nil => rfl
  | cons p rest ih => cases p; simp [sortKeysMembers, ih]

theorem insertByKey_map {α β : Type} (f : α → β) (p : String × α)
    (l : List (String × α)) :
    insertByKey (p.1, f p.2) (l.map (fun q => (q.1, f q.2))) =
      (insertByKey p l).map (fun q => (q.1, f q.2)) := by
  induction l with
  | nil => rfl
  | cons q rest ih =>
      cases h : strLeb p.1 q.1 <;> simp [insertByKey, h, ih]

/-- Sorting by key commutes with mapping over the values. -/
theorem sortByKey_map {α β : Type} (f : α → β) (l : List (String × α)) :
    sortByKey (l.map (fun q => (q.1, f q.2))) =
      (sortByKey l).map (fun q => (q.1, f q.2)) := by
  induction l with
  | nil => rfl
  | cons p rest ih => simp only [List.map_cons, sortByKey, ih, insertByKey_map]

theorem strLeb_total (a b : String) : strLeb a b = true ∨ strLeb b a = true := by
  unfold strLeb
  generalize a.toList = x
  generalize b.toList = y
  induction x generalizing y with
  | nil => left; rfl
  | cons c cs ih =>
      cases y with
      | nil => right; rfl
      | cons d ds =>
          rcases Nat.lt_trichotomy c.toNat d.toNat with h | h | h
          · left; simp [charListLeb, h]
          · have hcd : ¬ c.toNat < d.toNat := by omega
            have hdc : ¬ d.toNat < c.toNat := by omega
            rcases ih ds with h2 | h2
            · left; simp [charListLeb, hcd, hdc, h2]
            · right; simp [charListLeb, hcd, hdc, h2]
          · right; simp [charListLeb, h]

theorem charListLeb_trans : ∀ (x y z : List Char),
    charListLeb x y = true → charListLeb y z = true → charListLeb x z = true
  | [], _, _, _, _ => rfl
  | _ :: _, [], _, h1, _ => by simp [charListLeb] at h1
  | _ :: _, _ :: _, [], _, h2 => by simp [charListLeb] at h2
  | c :: cs, d :: ds, e :: es, h1, h2 => by
      rcases Nat.lt_trichotomy c.toNat d.toNat with hcd | hcd | hcd
      · rcases Nat.lt_trichotomy d.toNat e.toNat with hde | hde | hde
        · simp [charListLeb, show c.toNat < e.toNat by omega]
        · simp [charListLeb, show c.toNat < e.toNat by omega]
        · simp [charListLeb, show ¬ d.toNat < e.toNat by omega, hde] at h2
      · have h1r : charListLeb cs ds = true := by
          simpa [charListLeb, show ¬ c.toNat < d.toNat by omega,
                 show ¬ d.toNat < c.toNat by omega] using h1
        rcases Nat.lt_trichotomy d.toNat e.toNat with hde | hde | hde
        · simp [charListLeb, show c.toNat < e.toNat by omega]
        · have h2r : charListLeb ds es = true := by
            simpa [charListLeb, show ¬ d.toNat < e.toNat by omega,
                   show ¬ e.toNat < d.toNat by omega] using h2
          simp [charListLeb, show ¬ c.toNat < e.toNat by omega,
                show ¬ e.toNat < c.toNat by omega,
                charListLeb_trans cs ds es h1r h2r]
        · simp [charListLeb, show ¬ d.toNat < e.toNat by omega, hde] at h2
      · simp [charListLeb, show ¬ c.toNat < d.toNat by omega, hcd] at h1

theorem strLeb_trans {a b c : String} (h1 : strLeb a b = true)
    (h2 : strLeb b c = true) : strLeb a c = true :=
  charListLeb_trans a.toList b.toList c.toList h1 h2

/-- Member lists sorted by key, in the sense of `sortByKey`. -/
def KeySorted {α : Type} (l : List (String × α)) : Prop :=
  l.Pairwise (fun p q => strLeb p.1 q.1 = true)

theorem mem_insertByKey {α : Type} (p x : String × α) (l : List (String × α)) :
    x ∈ insertByKey p l ↔ x = p ∨ x ∈ l := by
  induction l with
  | nil => simp [insertByKey]
  | cons q rest ih =>
      cases h : strLeb p.1 q.1 <;> simp [insertByKey, h, ih]
      tauto

theorem keySorted_insertByKey {α : Type} (p : String × α)
    (l : List (String × α)) (h : KeySorted l) : KeySorted (insertByKey p l) := by
  induction l with
  | nil => simp [insertByKey, KeySorted]
  | cons q rest ih =>
      rcases List.pairwise_cons.mp h with ⟨hq, hrest⟩
      cases hle : strLeb p.1 q.1
      · have hqp : strLeb q.1 p.1 = true := by
          rcases strLeb_total p.1 q.1 with h1 | h1
          · exact absurd h1 (by simp [hle])
          · exact h1
        rw [show insertByKey p (q :: rest) = q :: insertByKey p rest by
              simp [insertByKey, hle]]
        refine List.pairwise_cons.mpr ⟨?_, ih hrest⟩
        intro x hx
        rcases (mem_insertByKey p x rest).mp hx with rfl | hx2
        · exact hqp
        · exact hq x hx2
      · rw [show insertByKey p (q :: rest) = p :: q :: rest by
              simp [insertByKey, hle]]
        refine List.pairwise_cons.mpr ⟨?_, h⟩
        intro x hx
        rcases List.mem_cons.mp hx with rfl | hx2
        · exact hle
        · -- strLeb p.1 x.1 via p ≤ q ≤ x: avoid transitivity by direct chain
          exact strLeb_trans hle (hq x hx2)

theorem sortByKey_keySorted {α : Type} (l : List (String × α)) :
    KeySorted (sortByKey l) := by
  induction l with
  | nil => simp [sortByKey, KeySorted]
  | cons p rest ih => exact keySorted_insertByKey p (sortByKey rest) ih

theorem sortByKey_of_keySorted {α : Type} (l : List (String × α))
    (h : KeySorted l) : sortByKey l = l := by
  induction l with
  | nil => rfl
  | cons p rest ih =>
      rcases List.pairwise_cons.mp h with ⟨hp, hrest⟩
      rw [show sortByKey (p :: rest) = insertByKey p (sortByKey rest) from rfl,
          ih hrest]
      cases rest with
      | nil => rfl
      | cons q rest2 => simp [insertByKey, hp q (List.mem_cons_self q rest2)]

theorem sortByKey_idem {α : Type} (l : List (String × α)) :
    sortByKey (sortByKey l) = sortByKey l :=
  sortByKey_of_keySorted (sortByKey l) (sortByKey_keySorted l)

/-- Serializing member values commutes with the by-key sort, since the sort
compares keys only. -/
theorem serMembers_sortByKey (m : List (String × Json)) :
    serMembers (sortByKey m) = sortByKey (serMembers m) := by
  simp [serMembers_eq_map, sortByKey_map]

mutual
/-- The canonical serialization is invariant under recursively pre-sorting
all object member lists. -/
theorem serJson_sortKeysRec : ∀ j : Json, serJson (sortKeysRec j) = serJson j
  | .null => rfl
  | .boolean b => rfl
  | .number lit => rfl
  | .string s => rfl
  | .array xs => by
      simp only [sortKeysRec, serJson]
      rw [serList_sortKeysList xs]
  | .object l => by
      simp only [sortKeysRec, serJson]
      rw [serMembers_sortByKey, sortByKey_idem, serMembers_sortKeysMembers l]

theorem serList_sortKeysList : ∀ xs : List Json,
    serList (sortKeysList xs) = serList xs
  | [] => rfl
  | x :: rest => by
      simp only [sortKeysList, serList]
      rw [serJson_sortKeysRec x, serList_sortKeysList rest]

theorem serMembers_sortKeysMembers : ∀ l : List (String × Json),
    serMembers (sortKeysMembers l) = serMembers l
  | [] => rfl
  | (k, v) :: rest => by
      simp only [sortKeysMembers, serMembers]
      rw [serJson_sortKeysRec v, serMembers_sortKeysMembers rest]
end

/-- Claim C7: GeoJSON values equal up to permutations of object keys, at
any nesting depth (their recursively key-sorted forms coincide), get the
same `hash_geojson` digest — the hash is a function of the canonical
sorted-keys, no-whitespace serialization. -/
theorem hash_geojson_key_order_independent (a b : Json)
    (h : sortKeysRec a = sortKeysRec b) : hash_geojson a = hash_geojson b := by
  unfold hash_geojson
  rw [← serJson_sortKeysRec a, ← serJson_sortKeysRec b, h]

/-- A polygon feature with members in one order. -/
def polyKeysOrderOne : Json :=
  Json.object
    [("type", Json.string "Polygon"),
     ("coordinates", Json.array [Json.array
        [Json.array [Json.number "-46.5", Json.number "-23.5"],
         Json.array [Json.number "-46.5", Json.number "-23.51"],
         Json.array [Json.number "-46.5", Json.number "-23.5"]]]),
     ("properties", Json.object
        [("name", Json.string "talhao"), ("state", Json.string "SP")])]

/-- The same feature with the top-level and nested member orders permuted. -/
def polyKeysOrderTwo : Json :=
  Json.object
    [("properties", Json.object
        [("state", Json.string "SP"), ("name", Json.string "talhao")]),
     ("coordinates", Json.array [Json.array
        [Json.array [Json.number "-46.5", Json.number "-23.5"],
         Json.array [Json.number "-46.5", Json.number "-23.51"],
         Json.array [Json.number "-46.5", Json.number "-23.5"]]]),
     ("type", Json.string "Polygon")]

theorem hash_geojson_key_order_independent_witness :
    sortKeysRec polyKeysOrderOne = sortKeysRec polyKeysOrderTwo ∧
    hash_geojson polyKeysOrderOne = hash_geojson polyKeysOrderTwo :=
  ⟨by rfl, hash_geojson_key_order_independent polyKeysOrderOne polyKeysOrderTwo (by rfl)⟩

/-! ## Audit records and verification (`app/services/audit.py`) -/

/-- A `validation_reports` row, restricted to the fields
`record_validation_report` writes and `verify_report` reads. -/
structure ValidationReport where
  report_code : String
  status : String
  risk_score : Nat
  geometry_geojson : Json
  geometry_hash : String
  created_at : Int
  expires_at : Option Int
  deriving Repr

/-- Core of `AuditService.record_validation_report` (`audit.py`
lines 106-259) on the provided-report-code path with a fresh code: the
stored row carries the full geometry, `geometry_hash =
hash_geojson(geometry_geojson)`, `created_at = now` and `expires_at = now +
VALIDATION_EXPIRY_DAYS` (90 days, `config.py`).  The code-uniqueness retry
loop and the database insert/commit are the surrounding machinery; the row
contents are what verification reads back. -/
def record_validation_report (statusStr : String) (risk : Nat)
    (geometry_geojson : Json) (report_code : String) (now : Int) :
    ValidationReport :=
  { report_code := report_code
    status := statusStr
    risk_score := risk
    geometry_geojson := geometry_geojson
    geometry_hash := hash_geojson geometry_geojson
    created_at := now
    expires_at := some (now + 90 * 86400) }

/-- The dict returned by `AuditService.verify_report`, with the fields it
can carry. -/
structure VerifyResult where
  valid : Bool
  error : Option String := none
  expired_at : Option Int := none
  report_code : Option String := none
  status : Option String := none
  risk_score : Option Nat := none
  deriving DecidableEq, Repr

/-- `AuditService.verify_report` (`audit.py` lines 281-319), with
`get_report_by_code` abstracted as a lookup by report code: unknown code,
then expiry (`expires_at and now > expires_at`), then geometry-hash
comparison, then the valid summary. -/
def verify_report (lookup : String → Option ValidationReport) (now : Int)
    (code : String) (geometry_geojson : Json) : VerifyResult :=
  match lookup code with
  | none => { valid := false, error := some "Laudo não encontrado" }
  | some report =>
    if (match report.expires_at with
        | some e => decide (e < now)
        | none => false) then
      { valid := false, error := some "Laudo expirado",
        expired_at := report.expires_at }
    else if hash_geojson geometry_geojson != report.geometry_hash then
      { valid := false, error := some "Geometria não corresponde ao laudo" }
    else
      { valid := true, report_code := some report.report_code,
        status := some report.status, risk_score := some report.risk_score }

/-- The polygon recorded in the verification scenarios. -/
def scenarioGeometry : Json :=
  Json.object
    [("type", Json.string "Polygon"),
     ("coordinates", Json.array [Json.array
        [Json.array [Json.number "-46.5", Json.number "-23.5"],
         Json.array [Json.number "-46.5", Json.number "-23.51"],
         Json.array [Json.number "-46.49", Json.number "-23.51"],
         Json.array [Json.number "-46.5", Json.number "-23.5"]]])]

/-- An audit record for `scenarioGeometry`, created at epoch 0. -/
def scenarioReport : ValidationReport :=
  record_validation_report "approved" 95 scenarioGeometry
    "GG-20250101120000-AB12" 0

/-- Lookup table holding exactly `scenarioReport`. -/
def scenarioLookup : String → Option ValidationReport :=
  fun code =>
    if code = "GG-20250101120000-AB12" then some scenarioReport else none

/-- Counterexample to claim C8 as stated: 91 days after creation the record
has expired, and `verify_report` with the EXACT recorded geometry returns
`valid = false` (error "Laudo expirado"), so the round trip does not hold
unconditionally. -/
theorem verify_report_roundtrip_fails_when_expired :
    (verify_report scenarioLookup (91 * 86400) "GG-20250101120000-AB12"
        scenarioGeometry).valid = false ∧
    (verify_report scenarioLookup (91 * 86400) "GG-20250101120000-AB12"
        scenarioGeometry).error = some "Laudo expirado" := by
  constructor <;> rfl

/-- Claim C8 as amended: for a record R created by
`record_validation_report` from geometry G and registered under its report
code, any call made while R is unexpired returns `valid = true` for G, and
`valid = false` with error "Geometria não corresponde ao laudo" for every
geometry whose canonical-serialization SHA-256 digest differs from G's
(such as one with an altered coordinate). -/
theorem verify_report_roundtrip (statusStr : String) (risk : Nat) (G : Json)
    (code : String) (created now : Int)
    (lookup : String → Option ValidationReport)
    (hlook : lookup code =
      some (record_validation_report statusStr risk G code created))
    (hfresh : now ≤ created + 90 * 86400) :
    (verify_report lookup now code G).valid = true ∧
    ∀ G2 : Json, hash_geojson G2 ≠ hash_geojson G →
      (verify_report lookup now code G2).valid = false ∧
      (verify_report lookup now code G2).error =
        some "Geometria não corresponde ao laudo" := by
  have hlt : ¬ (created + 7776000 < now) := by omega
  constructor
  · simp [verify_report, hlook, record_validation_report, hlt]
  · intro G2 hne
    have hbne : (hash_geojson G2 != hash_geojson G) = true := by
      simpa [bne_iff_ne] using hne
    constructor <;>
      simp [verify_report, hlook, record_validation_report, hlt, hbne]

/-- A second geometry: one coordinate of `scenarioGeometry` altered. -/
def alteredGeometry : Json :=
  Json.object
    [("type", Json.string "Polygon"),
     ("coordinates", Json.array [Json.array
        [Json.array [Json.number "-46.5", Json.number "-23.5"],
         Json.array [Json.number "-46.5", Json.number "-23.52"],
         Json.array [Json.number "-46.49", Json.number "-23.51"],
         Json.array [Json.number "-46.5", Json.number "-23.5"]]])]

set_option maxRecDepth 100000 in
theorem verify_report_roundtrip_witness :
    (scenarioLookup "GG-20250101120000-AB12" = some scenarioReport ∧
     (86400 : Int) ≤ 0 + 90 * 86400 ∧
     hash_geojson alteredGeometry ≠ hash_geojson scenarioGeometry) ∧
    (verify_report scenarioLookup 86400 "GG-20250101120000-AB12"
        scenarioGeometry).valid = true ∧
    (verify_report scenarioLookup 86400 "GG-20250101120000-AB12"
        alteredGeometry).error = some "Geometria não corresponde ao laudo" :=
  ⟨⟨rfl, by decide, by decide⟩,
   (verify_report_roundtrip "approved" 95 scenarioGeometry
      "GG-20250101120000-AB12" 0 86400 scenarioLookup rfl (by decide)).1,
   ((verify_report_roundtrip "approved" 95 scenarioGeometry
      "GG-20250101120000-AB12" 0 86400 scenarioLookup rfl (by decide)).2
      alteredGeometry (by decide)).2⟩

/-- Claim C10: on a record whose `expires_at` has passed, `verify_report`
returns `valid = false` with error "Laudo expirado" and the stored expiry
timestamp, regardless of the submitted geometry. -/
theorem verify_report_expired_regardless_of_geometry
    (lookup : String → Option ValidationReport) (now : Int) (code : String)
    (R : ValidationReport) (e : Int)
    (hlook : lookup code = some R)
    (hexp : R.expires_at = some e)
    (hpast : e < now) :
    ∀ G : Json,
      (verify_report lookup now code G).valid = false ∧
      (verify_report lookup now code G).error = some "Laudo expirado" ∧
      (verify_report lookup now code G).expired_at = some e := by
  intro G
  refine ⟨?_, ?_, ?_⟩ <;> simp [verify_report, hlook, hexp, hpast]

theorem verify_report_expired_regardless_of_geometry_witness :
    (scenarioLookup "GG-20250101120000-AB12" = some scenarioReport ∧
     scenarioReport.expires_at = some (90 * 86400) ∧
     (90 * 86400 : Int) < 91 * 86400) ∧
    ((verify_report scenarioLookup (91 * 86400) "GG-20250101120000-AB12"
        Json.null).valid = false ∧
     (verify_report scenarioLookup (91 * 86400) "GG-20250101120000-AB12"
        Json.null).error = some "Laudo expirado" ∧
     (verify_report scenarioLookup (91 * 86400) "GG-20250101120000-AB12"
        Json.null).expired_at = some (90 * 86400)) :=
  ⟨⟨rfl, by decide, by decide⟩,
   verify_report_expired_regardless_of_geometry scenarioLookup (91 * 86400)
     "GG-20250101120000-AB12" scenarioReport (90 * 86400) rfl (by decide)
     (by decide) Json.null⟩

end GreenGate
